import Mathlib

/-!
Verification development for the dataset access layer of the phypno/wonambi
repository: the `IOEEG` format-adapter contract (`src/phypno/ioeeg/__init__.py`,
with the concrete `IOEEG` test adapter of `src/test/test_phypno_dataset.py`)
and the `Dataset` facade (`Dataset.read_data`) with coordinate translation and
slab caching.  The facade's own module is not among the available sources, so
its operations are modelled from the specification; the adapter's
`return_dat`, which is present in the sources, is embedded from the code.
-/

namespace Phypno

/-- Normalisation of one bound of a Python slice `l[b:e]` for a sequence of
length `n`: a negative index counts from the end and the result is clamped to
`[0, n]`. -/
def pyIdx (n : Nat) (i : Int) : Nat :=
  if i < 0 then (i + n).toNat else min i.toNat n

/-- Python slice `l[b:e]` on a list: both bounds are normalised with `pyIdx`
and the slice is empty when the normalised start is at or past the normalised
stop.  Out-of-range bounds are clamped, never an error. -/
def pySlice (l : List α) (b e : Int) : List α :=
  let b' := pyIdx l.length b
  let e' := pyIdx l.length e
  (l.drop b').take (e' - b')

/-- Floor of a rational, computed from its normalised fraction by flooring
integer division. -/
def ratFloor (q : ℚ) : ℤ :=
  Int.fdiv q.num q.den

/-- Python 3 `round` on a rational: round half to even (banker's rounding). -/
def pyRound (q : ℚ) : ℤ :=
  let f : ℤ := ratFloor q
  let frac : ℚ := q - (f : ℚ)
  if frac < 1 / 2 then f
  else if 1 / 2 < frac then f + 1
  else if f % 2 = 0 then f else f + 1

/-- Row `c` of the 10 x 100 buffer `data = rand(10, 100)` used by
`IOEEG.return_dat`; the random entries are abstracted as a function
`data : Nat → Nat → ℚ`. -/
def ioeegRow (data : Nat → Nat → ℚ) (c : Nat) : List ℚ :=
  (List.range 100).map (data c)

/-- Embedding of `IOEEG.return_dat(chan, begsam, endsam)` from
`src/test/test_phypno_dataset.py` (and the documented contract in
`src/phypno/ioeeg/__init__.py`) for a list-valued `chan`:
`data[chan, begsam:endsam]` in numpy selects the rows listed in `chan`
(failing when a row index is out of range) and slices each row with Python
slice semantics (clamping, never failing). -/
def returnDatL (data : Nat → Nat → ℚ) (chan : List Nat) (begsam endsam : Int) :
    Except Unit (List (List ℚ)) :=
  if chan.all (· < 10) then
    .ok (chan.map (fun c => pySlice (ioeegRow data c) begsam endsam))
  else
    .error ()

/-- Embedding of `IOEEG.return_dat(chan, begsam, endsam)` for an integer
`chan`: `data[chan, begsam:endsam]` selects the single row `chan` (failing
when it is out of range) and returns the one-dimensional slice of that row. -/
def returnDatI (data : Nat → Nat → ℚ) (chan : Nat) (begsam endsam : Int) :
    Except Unit (List ℚ) :=
  if chan < 10 then
    .ok (pySlice (ioeegRow data chan) begsam endsam)
  else
    .error ()

/-- Modelled from the spec: the Header record produced by
`return_header()` / `return_hdr()` (the facade module `phypno/dataset.py` is
not among the sources).  Timestamps (`start_time`, and absolute timestamps in
read requests) are modelled as rational numbers of seconds; `datetime`
subtraction followed by `total_seconds()` becomes rational subtraction. -/
structure Hdr where
  subj_id : String
  start_time : ℚ
  s_freq : ℚ
  chan_name : List String
  n_samples : Nat

/-- Modelled from the spec: the error taxonomy of section 7 (the facade
module raising these is not among the sources). -/
inductive DatasetError where
  | UnrecognizedFormat
  | ChannelLookupError (name : String)
  | ChannelTypeError
  | CoordinateRangeError
  | AdapterReadError
deriving DecidableEq

/-- Modelled from the spec: the channel-selection argument of `read_data`:
the "all" sentinel (`chan=None`), an ordered list of channel names, or a bare
string where a sequence of names is expected (the unsupported shape that must
fail with a type error). -/
inductive ChanSel where
  | all
  | names (ns : List String)
  | bare (s : String)

/-- Modelled from the spec: the four accepted coordinate forms of a read
request.  `samples` carries integer sample indices `[begsam, endsam)`;
`seconds` carries elapsed seconds from the start of the recording;
`timestamps` carries absolute timestamps (rational seconds on the same axis
as `Hdr.start_time`); `durations` carries offsets from `start_time`. -/
inductive CoordSpec where
  | samples (begsam endsam : ℤ)
  | seconds (begtime endtime : ℚ)
  | timestamps (begtime endtime : ℚ)
  | durations (begtime endtime : ℚ)

/-- Modelled from the spec: resolution of a list of requested channel names
to zero-based indices into `chan_name`; the first name that is not an exact
match fails with `ChannelLookupError`. -/
def resolveNames (cn : List String) : List String → Except DatasetError (List Nat)
  | [] => .ok []
  | n :: ns =>
    match cn.findIdx? (fun c => c == n) with
    | some i =>
      match resolveNames cn ns with
      | .ok is => .ok (i :: is)
      | .error err => .error err
    | none => .error (.ChannelLookupError n)

/-- Modelled from the spec: channel resolution (step 1 of `read_data`): the
"all" sentinel resolves to every channel in header order, a list of names is
looked up exactly, and a selection of unsupported shape (a bare string)
fails with `ChannelTypeError`. -/
def resolveChannels (hdr : Hdr) : ChanSel → Except DatasetError (List Nat)
  | .all => .ok (List.range hdr.chan_name.length)
  | .names ns => resolveNames hdr.chan_name ns
  | .bare _ => .error .ChannelTypeError

/-- Modelled from the spec: coordinate resolution (step 2 of `read_data`):
`sample = round(seconds * sampling_frequency)` for the elapsed-seconds form
and `sample = round((timestamp - start_time).total_seconds() *
sampling_frequency)` for the timestamp form; a duration `d` stands for the
timestamp `start_time + d`. -/
def resolveCoords (hdr : Hdr) : CoordSpec → ℤ × ℤ
  | .samples b e => (b, e)
  | .seconds b e => (pyRound (b * hdr.s_freq), pyRound (e * hdr.s_freq))
  | .timestamps b e =>
      (pyRound ((b - hdr.start_time) * hdr.s_freq),
       pyRound ((e - hdr.start_time) * hdr.s_freq))
  | .durations b e => (pyRound (b * hdr.s_freq), pyRound (e * hdr.s_freq))

/-- Modelled from the spec: span validation (policy: fail): the resolved
indices must satisfy `0 <= begin < end <= sample_count`, otherwise the call
fails with `CoordinateRangeError`. -/
def validateSpan (hdr : Hdr) (b e : ℤ) : Except DatasetError (Nat × Nat) :=
  if b < 0 ∨ (hdr.n_samples : ℤ) < e ∨ e ≤ b then .error .CoordinateRangeError
  else .ok (b.toNat, e.toNat)

/-- Modelled from the spec: full resolution of a coordinate spec to a
validated pair of absolute sample indices. -/
def resolveSpan (hdr : Hdr) (spec : CoordSpec) : Except DatasetError (Nat × Nat) :=
  validateSpan hdr (resolveCoords hdr spec).1 (resolveCoords hdr spec).2

/-- Modelled from the spec: the Dataset facade state: the immutable header,
the wrapped Format Adapter's `return_dat` capability (taking resolved channel
indices and a validated sample span; its own failures are opaque to the
facade), and the cache mapping read keys to slabs. -/
structure Dataset where
  hdr : Hdr
  adapter : List Nat → Nat → Nat → Except Unit (List (List ℚ))
  cache : List ((List Nat × Nat × Nat) × List (List ℚ))

/-- Lookup of a read key in the cache, by equality of keys (the cache is a
mapping keyed on (channel indices, begin sample, end sample)). -/
def cacheLookup (k : List Nat × Nat × Nat) :
    List ((List Nat × Nat × Nat) × List (List ℚ)) → Option (List (List ℚ))
  | [] => none
  | (k', v) :: es => if k = k' then some v else cacheLookup k es

/-- Modelled from the spec: steps 3 and 4 of `read_data` for an already
resolved request: look the key up in the cache; on a hit return the stored
slab unchanged, on a miss invoke the adapter's `return_dat` capability and
store the new entry.  The returned `Bool` records whether the adapter was
invoked (`true` exactly on a cache miss). -/
def serveSpan (d : Dataset) (chans : List Nat) (b e : Nat) :
    Except DatasetError (List (List ℚ) × Dataset × Bool) :=
  match cacheLookup (chans, b, e) d.cache with
  | some slab => .ok (slab, d, false)
  | none =>
    match d.adapter chans b e with
    | .error _ => .error .AdapterReadError
    | .ok slab =>
        .ok (slab, ⟨d.hdr, d.adapter, ((chans, b, e), slab) :: d.cache⟩, true)

/-- Modelled from the spec: `Dataset.read_data`: resolve channels, resolve
and validate the coordinate span, then serve the request from the cache or
the adapter. -/
def read_data (d : Dataset) (sel : ChanSel) (spec : CoordSpec) :
    Except DatasetError (List (List ℚ) × Dataset × Bool) :=
  match resolveChannels d.hdr sel with
  | .error err => .error err
  | .ok chans =>
    match resolveSpan d.hdr spec with
    | .error err => .error err
    | .ok (b, e) => serveSpan d chans b e

/-- Modelled from the spec: one candidate Format Adapter implementation,
probing a path (of abstract type `α`) for its header and serving raw slabs
from it. -/
structure AdapterImpl (α : Type) where
  return_hdr : α → Except Unit Hdr
  return_dat : α → List Nat → Nat → Nat → Except Unit (List (List ℚ))

/-- Modelled from the spec: probing at open time: candidates are tried in
priority order until one succeeds in `return_hdr`; if all fail the open
fails with `UnrecognizedFormat`. -/
def probeAdapters (cands : List (AdapterImpl α)) (path : α) :
    Except DatasetError (AdapterImpl α × Hdr) :=
  match cands with
  | [] => .error .UnrecognizedFormat
  | c :: cs =>
    match c.return_hdr path with
    | .ok hdr => .ok (c, hdr)
    | .error _ => probeAdapters cs path

/-- Modelled from the spec: `Dataset(path, IOClass=...)` construction: an
explicitly supplied adapter class bypasses format probing; otherwise the
candidates are probed in order. -/
def mkDataset (cands : List (AdapterImpl α)) (ioclass : Option (AdapterImpl α))
    (path : α) : Except DatasetError Dataset :=
  match ioclass with
  | some c =>
    match c.return_hdr path with
    | .ok hdr => .ok ⟨hdr, c.return_dat path, []⟩
    | .error _ => .error .UnrecognizedFormat
  | none =>
    match probeAdapters cands path with
    | .ok (c, hdr) => .ok ⟨hdr, c.return_dat path, []⟩
    | .error err => .error err

/-- Wrapper turning the embedded `IOEEG.return_dat` into the adapter
capability consumed by the facade (validated natural-number bounds). -/
def ioeegAdapter (data : Nat → Nat → ℚ) :
    List Nat → Nat → Nat → Except Unit (List (List ℚ)) :=
  fun chans b e => returnDatL data chans (b : ℤ) (e : ℤ)

/-- Header returned by the `IOEEG` test adapter of
`src/test/test_phypno_dataset.py`: `return_hdr` yields
`(str(), datetime.now(), 1, ['0', '1'], 1, dict())`; the wall-clock start
time is abstracted as a parameter `t`. -/
def testHdr (t : ℚ) : Hdr :=
  ⟨"", t, 1, ["0", "1"], 1⟩

/-- Embedding of the `IOEEG` test adapter class of
`src/test/test_phypno_dataset.py`: `return_hdr` always succeeds with
`testHdr` and `return_dat` is the embedded `IOEEG.return_dat`. -/
def testIOEEG (t : ℚ) (data : Nat → Nat → ℚ) : AdapterImpl α :=
  ⟨fun _ => .ok (testHdr t), fun _ => ioeegAdapter data⟩

/-! Helper lemmas about Python slice semantics and the embedded adapter. -/

lemma pyIdx_natCast (n b : ℕ) : pyIdx n (b : ℤ) = min b n := by
  simp [pyIdx]

lemma slice_range_map (f : ℕ → ℚ) (n b e : ℕ) (he : e ≤ n) :
    (((List.range n).map f).drop b).take (e - b) =
      (List.range (e - b)).map (fun j => f (b + j)) := by
  apply List.ext_getElem
  · simp only [List.length_take, List.length_drop, List.length_map,
      List.length_range]
    omega
  · intro i h1 h2
    simp only [List.length_take, List.length_drop, List.length_map,
      List.length_range] at h1
    simp only [List.getElem_take, List.getElem_drop, List.getElem_map,
      List.getElem_range]

lemma pySlice_ioeegRow (data : ℕ → ℕ → ℚ) (c b e : ℕ) (he : e ≤ 100) :
    pySlice (ioeegRow data c) (b : ℤ) (e : ℤ) =
      (List.range (e - b)).map (fun j => data c (b + j)) := by
  have hlen : (ioeegRow data c).length = 100 := by
    simp [ioeegRow]
  simp only [pySlice, hlen, pyIdx_natCast]
  rcases Nat.le_total b e with hbe | heb
  · have h1 : min b 100 = b := by omega
    have h2 : min e 100 = e := by omega
    rw [h1, h2, ioeegRow, slice_range_map (data c) 100 b e he]
  · have h2 : min e 100 = e := by omega
    have h3 : e - min b 100 = 0 := by omega
    rw [h2, h3]
    have h4 : e - b = 0 := by omega
    simp [h4]

lemma pySlice_ioeegRow_clamped (data : ℕ → ℕ → ℚ) (c b : ℕ) (e : ℤ)
    (hb : b ≤ 100) (he : (100 : ℤ) ≤ e) :
    pySlice (ioeegRow data c) (b : ℤ) e =
      (List.range (100 - b)).map (fun j => data c (b + j)) := by
  have hlen : (ioeegRow data c).length = 100 := by
    simp [ioeegRow]
  have hidx : pyIdx 100 e = 100 := by
    simp only [pyIdx]
    rw [if_neg (by omega)]
    omega
  simp only [pySlice, hlen, pyIdx_natCast, hidx]
  have h1 : min b 100 = b := by omega
  rw [h1, ioeegRow, slice_range_map (data c) 100 b 100 le_rfl]

lemma returnDatL_eq (data : ℕ → ℕ → ℚ) (chans : List ℕ) (b e : ℕ)
    (hc : ∀ c ∈ chans, c < 10) (he : e ≤ 100) :
    returnDatL data chans (b : ℤ) (e : ℤ) =
      .ok (chans.map (fun c => (List.range (e - b)).map (fun j => data c (b + j)))) := by
  have hall : chans.all (· < 10) = true := by
    simp only [List.all_eq_true, decide_eq_true_eq]
    exact hc
  simp only [returnDatL, hall, if_true]
  congr 1
  exact List.map_congr_left (fun c _ => pySlice_ioeegRow data c b e he)

/-! Helper lemmas about the facade. -/

lemma cacheLookup_mem {k : List Nat × Nat × Nat} {v : List (List ℚ)} :
    ∀ {ps : List ((List Nat × Nat × Nat) × List (List ℚ))},
      cacheLookup k ps = some v → (k, v) ∈ ps
  | [], h => by simp [cacheLookup] at h
  | (k', v') :: es, h => by
    rw [show cacheLookup k ((k', v') :: es) =
          if k = k' then some v' else cacheLookup k es from rfl] at h
    by_cases hk : k = k'
    · rw [if_pos hk] at h
      injection h with h
      subst hk
      subst h
      exact List.mem_cons_self _ _
    · rw [if_neg hk] at h
      exact List.mem_cons_of_mem _ (cacheLookup_mem h)

lemma resolveNames_error {cn ns : List String} {x : DatasetError}
    (h : resolveNames cn ns = .error x) : ∃ n, x = .ChannelLookupError n := by
  induction ns with
  | nil => simp [resolveNames] at h
  | cons n ns ih =>
    rcases hf : cn.findIdx? (fun c => c == n) with _ | i
    · simp only [resolveNames, hf, Except.error.injEq] at h
      exact ⟨n, h.symm⟩
    · simp only [resolveNames, hf] at h
      rcases hr : resolveNames cn ns with err | is
      · rw [hr] at h
        simp only [Except.error.injEq] at h
        subst h
        exact ih hr
      · rw [hr] at h
        exact absurd h (by simp)

lemma resolveChannels_error {hdr : Hdr} {sel : ChanSel} {x : DatasetError}
    (h : resolveChannels hdr sel = .error x) :
    x = .ChannelTypeError ∨ ∃ n, x = .ChannelLookupError n := by
  cases sel with
  | all => simp [resolveChannels] at h
  | names ns => exact .inr (resolveNames_error h)
  | bare s =>
    simp only [resolveChannels, Except.error.injEq] at h
    exact .inl h.symm

lemma validateSpan_error {hdr : Hdr} {b e : ℤ} {x : DatasetError}
    (h : validateSpan hdr b e = .error x) : x = .CoordinateRangeError := by
  unfold validateSpan at h
  by_cases hc : b < 0 ∨ (hdr.n_samples : ℤ) < e ∨ e ≤ b
  · rw [if_pos hc] at h
    exact (Except.error.injEq _ _).mp h.symm
  · rw [if_neg hc] at h
    exact absurd h (by simp)

lemma serveSpan_ok {d : Dataset} {chans : List Nat} {b e : Nat}
    {slab : List (List ℚ)} {d' : Dataset} {inv : Bool}
    (h : serveSpan d chans b e = .ok (slab, d', inv)) :
    d'.hdr = d.hdr ∧ d'.adapter = d.adapter ∧
      cacheLookup (chans, b, e) d'.cache = some slab := by
  unfold serveSpan at h
  rcases hl : cacheLookup (chans, b, e) d.cache with _ | s
  · rw [hl] at h
    rcases ha : d.adapter chans b e with u | s2
    · rw [ha] at h
      exact absurd h (by simp)
    · rw [ha] at h
      simp only [Except.ok.injEq, Prod.mk.injEq] at h
      obtain ⟨rfl, rfl, rfl⟩ := h
      refine ⟨rfl, rfl, ?_⟩
      simp [cacheLookup]
  · rw [hl] at h
    simp only [Except.ok.injEq, Prod.mk.injEq] at h
    obtain ⟨rfl, rfl, rfl⟩ := h
    exact ⟨rfl, rfl, hl⟩

lemma serveSpan_error {d : Dataset} {chans : List Nat} {b e : Nat}
    {x : DatasetError} (h : serveSpan d chans b e = .error x) :
    x = .AdapterReadError := by
  unfold serveSpan at h
  rcases hl : cacheLookup (chans, b, e) d.cache with _ | s
  · rw [hl] at h
    rcases ha : d.adapter chans b e with u | s2
    · rw [ha] at h
      exact ((Except.error.injEq _ _).mp h).symm
    · rw [ha] at h
      exact absurd h (by simp)
  · rw [hl] at h
    exact absurd h (by simp)

lemma serveSpan_shape {d : Dataset} {chans : List Nat} {b e : Nat}
    {slab : List (List ℚ)} {d' : Dataset} {inv : Bool}
    (hA : ∀ cs bb ee rows, d.adapter cs bb ee = .ok rows →
      rows.length = cs.length ∧ ∀ r ∈ rows, r.length = ee - bb)
    (hC : ∀ k s, (k, s) ∈ d.cache →
      s.length = k.1.length ∧ ∀ r ∈ s, r.length = k.2.2 - k.2.1)
    (h : serveSpan d chans b e = .ok (slab, d', inv)) :
    slab.length = chans.length ∧ ∀ r ∈ slab, r.length = e - b := by
  unfold serveSpan at h
  rcases hl : cacheLookup (chans, b, e) d.cache with _ | s
  · rw [hl] at h
    rcases ha : d.adapter chans b e with u | s2
    · rw [ha] at h
      exact absurd h (by simp)
    · rw [ha] at h
      simp only [Except.ok.injEq, Prod.mk.injEq] at h
      obtain ⟨rfl, _, _⟩ := h
      exact hA chans b e _ ha
  · rw [hl] at h
    simp only [Except.ok.injEq, Prod.mk.injEq] at h
    obtain ⟨rfl, _, _⟩ := h
    exact hC (chans, b, e) _ (cacheLookup_mem hl)

lemma read_data_error {d : Dataset} {sel : ChanSel} {spec : CoordSpec}
    {x : DatasetError} (h : read_data d sel spec = .error x) :
    x ≠ .UnrecognizedFormat := by
  unfold read_data at h
  rcases hch : resolveChannels d.hdr sel with err | chans
  · rw [hch] at h
    simp only [Except.error.injEq] at h
    subst h
    rcases resolveChannels_error hch with h1 | ⟨n, h1⟩ <;> simp [h1]
  · rw [hch] at h
    rcases hsp : resolveSpan d.hdr spec with err | ⟨b, e⟩
    · rw [hsp] at h
      simp only [Except.error.injEq] at h
      subst h
      have := validateSpan_error hsp
      simp [this]
    · rw [hsp] at h
      have := serveSpan_error h
      simp [this]

lemma read_data_eq_of {d : Dataset} {sel : ChanSel} {spec : CoordSpec}
    {chans : List Nat} {b e : Nat}
    (hch : resolveChannels d.hdr sel = .ok chans)
    (hsp : resolveSpan d.hdr spec = .ok (b, e)) :
    read_data d sel spec = serveSpan d chans b e := by
  unfold read_data
  rw [hch, hsp]

lemma read_data_ok_inv {d : Dataset} {sel : ChanSel} {spec : CoordSpec}
    {slab : List (List ℚ)} {d' : Dataset} {inv : Bool}
    (h : read_data d sel spec = .ok (slab, d', inv)) :
    ∃ chans b e, resolveChannels d.hdr sel = .ok chans ∧
      resolveSpan d.hdr spec = .ok (b, e) ∧
      serveSpan d chans b e = .ok (slab, d', inv) := by
  unfold read_data at h
  rcases hch : resolveChannels d.hdr sel with err | chans
  · rw [hch] at h
    exact absurd h (by simp)
  rw [hch] at h
  rcases hsp : resolveSpan d.hdr spec with err | ⟨b, e⟩
  · rw [hsp] at h
    exact absurd h (by simp)
  rw [hsp] at h
  exact ⟨chans, b, e, rfl, rfl, h⟩

lemma serveSpan_miss {d : Dataset} {chans : List Nat} {b e : Nat}
    {slab : List (List ℚ)} (hcache : d.cache = [])
    (ha : d.adapter chans b e = .ok slab) :
    serveSpan d chans b e =
      .ok (slab, ⟨d.hdr, d.adapter, [((chans, b, e), slab)]⟩, true) := by
  unfold serveSpan
  rw [hcache]
  simp only [cacheLookup, ha]

/-! Concrete fixtures used by the witnesses. -/

/-- Header of a concrete single-channel 512 Hz fixture dataset. -/
def fixtureHdr : Hdr := ⟨"sample", 0, 512, ["MFD1"], 512⟩

/-- Adapter of the fixture dataset: a constant-valued buffer served at the
exact requested shape. -/
def fixtureAdapter : List Nat → Nat → Nat → Except Unit (List (List ℚ)) :=
  fun chans b e =>
    .ok (chans.map (fun _ => (List.range (e - b)).map (fun _ => (7 : ℚ))))

/-- The fixture dataset with an empty cache. -/
def fixture : Dataset := ⟨fixtureHdr, fixtureAdapter, []⟩

/-- The single-channel constant slab of width `n` served by the fixture. -/
def fixtureSlab (n : Nat) : List (List ℚ) :=
  [(List.range n).map (fun _ => (7 : ℚ))]

/-- The fixture dataset after one read of channel 0, samples `[0, 512)`. -/
def fixture1 : Dataset :=
  ⟨fixtureHdr, fixtureAdapter, [(([0], 0, 512), fixtureSlab 512)]⟩

/-! Claim theorems. -/

/-- C1: for every dataset and every pair of successive `read_data` calls
whose coordinate specs resolve to the same channel selection and the same
absolute sample span (even when expressed in different coordinate systems),
the two calls return element-wise-equal slabs, and the second call does not
invoke the Format Adapter's `return_dat` (it is served from the cache: the
invocation flag of the second call is `false` and its slab is the stored
one, unchanged). -/
theorem read_data_idempotent_cache_hit
    (d : Dataset) (sel1 sel2 : ChanSel) (spec1 spec2 : CoordSpec)
    (slab : List (List ℚ)) (d1 : Dataset) (inv : Bool)
    (hsel : resolveChannels d.hdr sel1 = resolveChannels d.hdr sel2)
    (hspec : resolveSpan d.hdr spec1 = resolveSpan d.hdr spec2)
    (h : read_data d sel1 spec1 = .ok (slab, d1, inv)) :
    read_data d1 sel2 spec2 = .ok (slab, d1, false) := by
  obtain ⟨chans, b, e, hch, hsp, hss⟩ := read_data_ok_inv h
  obtain ⟨hhdr, hadp, hlook⟩ := serveSpan_ok hss
  have hch2 : resolveChannels d1.hdr sel2 = .ok chans := by
    rw [hhdr, ← hsel, hch]
  have hsp2 : resolveSpan d1.hdr spec2 = .ok (b, e) := by
    rw [hhdr, ← hspec, hsp]
  rw [read_data_eq_of hch2 hsp2]
  unfold serveSpan
  rw [hlook]

/-- Witness for C1 at the concrete fixture: a read of samples `[0, 512)`
followed by a range-equal read expressed in seconds is served from the
cache. -/
theorem read_data_idempotent_cache_hit_witness :
    read_data fixture1 (.names ["MFD1"]) (.seconds 0 1) =
      .ok (fixtureSlab 512, fixture1, false) :=
  read_data_idempotent_cache_hit fixture (.names ["MFD1"]) (.names ["MFD1"])
    (.samples 0 512) (.seconds 0 1) (fixtureSlab 512) fixture1 true rfl
    (by
      have h1 : resolveSpan fixture.hdr (.samples 0 512) = .ok (0, 512) := rfl
      have h2 : resolveSpan fixture.hdr (.seconds 0 1) = .ok (0, 512) := by
        norm_num [fixture, fixtureHdr, resolveSpan, resolveCoords, validateSpan,
          pyRound, ratFloor]
        decide
      rw [h1, h2])
    rfl

/-- C2: for a dataset whose header has sampling frequency `512.0` and
contains channel `'MFD1'` (with at least 512 samples, a fresh cache, and an
adapter serving the two requests at the documented shape),
`read_data(channels=['MFD1'], begsam=0, endsam=1)` succeeds and returns a
`(1, 1)` slab, and `read_data(channels=['MFD1'], begtime=0, endtime=1)`
resolves its span to `begsam=0, endsam=512` and returns a `(1, 512)`
slab. -/
theorem read_data_fixture_shapes
    (d : Dataset) (i : ℕ) (s1 s2 : List (List ℚ))
    (hf : d.hdr.s_freq = 512)
    (hch : d.hdr.chan_name.findIdx? (fun c => c == "MFD1") = some i)
    (hn : 512 ≤ d.hdr.n_samples)
    (hcache : d.cache = [])
    (ha1 : d.adapter [i] 0 1 = .ok s1)
    (hs1 : s1.length = 1 ∧ ∀ r ∈ s1, r.length = 1)
    (ha2 : d.adapter [i] 0 512 = .ok s2)
    (hs2 : s2.length = 1 ∧ ∀ r ∈ s2, r.length = 512) :
    (∃ d', read_data d (.names ["MFD1"]) (.samples 0 1) = .ok (s1, d', true)) ∧
    s1.length = 1 ∧ (∀ r ∈ s1, r.length = 1) ∧
    resolveSpan d.hdr (.seconds 0 1) = .ok (0, 512) ∧
    (∃ d', read_data d (.names ["MFD1"]) (.seconds 0 1) = .ok (s2, d', true)) ∧
    s2.length = 1 ∧ (∀ r ∈ s2, r.length = 512) := by
  have hch0 : resolveChannels d.hdr (.names ["MFD1"]) = .ok [i] := by
    simp [resolveChannels, resolveNames, hch]
  have hsp1 : resolveSpan d.hdr (.samples 0 1) = .ok (0, 1) := by
    show validateSpan d.hdr 0 1 = .ok (0, 1)
    unfold validateSpan
    rw [if_neg (by push_neg; omega)]
    rfl
  have p0 : pyRound ((0 : ℚ) * 512) = 0 := by norm_num [pyRound, ratFloor]
  have p1 : pyRound ((1 : ℚ) * 512) = 512 := by norm_num [pyRound, ratFloor]
  have hsp2 : resolveSpan d.hdr (.seconds 0 1) = .ok (0, 512) := by
    show validateSpan d.hdr (pyRound (0 * d.hdr.s_freq)) (pyRound (1 * d.hdr.s_freq)) =
      .ok (0, 512)
    rw [hf, p0, p1]
    unfold validateSpan
    rw [if_neg (by push_neg; omega)]
    rfl
  refine ⟨⟨⟨d.hdr, d.adapter, [(([i], 0, 1), s1)]⟩, ?_⟩, hs1.1, hs1.2, hsp2,
    ⟨⟨d.hdr, d.adapter, [(([i], 0, 512), s2)]⟩, ?_⟩, hs2.1, hs2.2⟩
  · rw [read_data_eq_of hch0 hsp1, serveSpan_miss hcache ha1]
  · rw [read_data_eq_of hch0 hsp2, serveSpan_miss hcache ha2]

/-- Witness for C2 at the concrete 512 Hz fixture. -/
theorem read_data_fixture_shapes_witness :
    (∃ d', read_data fixture (.names ["MFD1"]) (.samples 0 1) =
        .ok (fixtureSlab 1, d', true)) ∧
    (fixtureSlab 1).length = 1 ∧ (∀ r ∈ fixtureSlab 1, r.length = 1) ∧
    resolveSpan fixture.hdr (.seconds 0 1) = .ok (0, 512) ∧
    (∃ d', read_data fixture (.names ["MFD1"]) (.seconds 0 1) =
        .ok (fixtureSlab 512, d', true)) ∧
    (fixtureSlab 512).length = 1 ∧ (∀ r ∈ fixtureSlab 512, r.length = 512) :=
  read_data_fixture_shapes fixture 0 (fixtureSlab 1) (fixtureSlab 512)
    rfl rfl le_rfl rfl rfl
    ⟨rfl, by
      simp only [fixtureSlab, List.forall_mem_singleton, List.length_map,
        List.length_range]⟩
    rfl
    ⟨rfl, by
      simp only [fixtureSlab, List.forall_mem_singleton, List.length_map,
        List.length_range]⟩

/-- C3: `read_data` accepts each of the four coordinate forms — integer
sample indices, elapsed seconds from start, absolute timestamps, and
durations from `start_time` — converting the elapsed-seconds form as
`round(seconds * sampling_frequency)` and the timestamp/duration forms as
`round((timestamp - start_time).total_seconds() * sampling_frequency)`
(a duration `t` standing for the timestamp `start_time + t`); moreover the
behaviour of `read_data` depends on the coordinate spec only through the
resolved span, so every form is accepted uniformly. -/
theorem resolveCoords_four_forms :
    (∀ (hdr : Hdr) (b e : ℤ), resolveCoords hdr (.samples b e) = (b, e)) ∧
    (∀ (hdr : Hdr) (b e : ℚ), resolveCoords hdr (.seconds b e) =
        (pyRound (b * hdr.s_freq), pyRound (e * hdr.s_freq))) ∧
    (∀ (hdr : Hdr) (b e : ℚ), resolveCoords hdr (.timestamps b e) =
        (pyRound ((b - hdr.start_time) * hdr.s_freq),
         pyRound ((e - hdr.start_time) * hdr.s_freq))) ∧
    (∀ (hdr : Hdr) (b e : ℚ), resolveCoords hdr (.durations b e) =
        (pyRound ((hdr.start_time + b - hdr.start_time) * hdr.s_freq),
         pyRound ((hdr.start_time + e - hdr.start_time) * hdr.s_freq))) ∧
    (∀ (d : Dataset) (sel : ChanSel) (s1 s2 : CoordSpec),
        resolveSpan d.hdr s1 = resolveSpan d.hdr s2 →
        read_data d sel s1 = read_data d sel s2) := by
  refine ⟨fun _ _ _ => rfl, fun _ _ _ => rfl, fun _ _ _ => rfl, ?_, ?_⟩
  · intro hdr b e
    have h1 : hdr.start_time + b - hdr.start_time = b := by ring
    have h2 : hdr.start_time + e - hdr.start_time = e := by ring
    rw [h1, h2]
    rfl
  · intro d sel s1 s2 h
    unfold read_data
    rw [h]

/-- Witness for C3 at the concrete 512 Hz fixture: sample indices resolve
unchanged, and a seconds-form read equals the range-equal samples-form
read. -/
theorem resolveCoords_four_forms_witness :
    resolveCoords fixtureHdr (.samples 0 1) = (0, 1) ∧
    read_data fixture .all (.seconds 0 1) = read_data fixture .all (.samples 0 512) :=
  ⟨resolveCoords_four_forms.1 fixtureHdr 0 1,
   resolveCoords_four_forms.2.2.2.2 fixture .all (.seconds 0 1) (.samples 0 512)
     (by
       have h2 : resolveSpan fixture.hdr (.seconds 0 1) = .ok (0, 512) := by
         norm_num [fixture, fixtureHdr, resolveSpan, resolveCoords, validateSpan,
           pyRound, ratFloor]
         decide
       rw [h2]
       rfl)⟩

/-- Candidate adapter recognising nothing: its header probe always fails. -/
def failAdapter : AdapterImpl Unit :=
  ⟨fun _ => .error (), fun _ _ _ _ => .error ()⟩

lemma probeAdapters_fail {α : Type} {cands : List (AdapterImpl α)} {path : α}
    (hfail : ∀ c ∈ cands, c.return_hdr path = .error ()) :
    probeAdapters cands path = .error .UnrecognizedFormat := by
  induction cands with
  | nil => rfl
  | cons c cs ih =>
    unfold probeAdapters
    rw [hfail c (List.mem_cons_self c cs)]
    exact ih (fun c' hc' => hfail c' (List.mem_cons_of_mem _ hc'))

/-- C4: the adapter's `return_dat` returns, for every valid request, exactly
`len(chan) × (endsam - begsam)` raw values in channel-major, time-minor
order; and for every valid `read_data` request — each requested channel
present in the header and a validated sample span — against an adapter and a
cache honouring that shape contract, the returned slab has shape exactly
`(number of selected channels, endsam - begsam)`. -/
theorem read_data_exact_shape :
    (∀ (data : ℕ → ℕ → ℚ) (chans : List ℕ) (b e : ℕ),
        (∀ c ∈ chans, c < 10) → e ≤ 100 →
        returnDatL data chans (b : ℤ) (e : ℤ) =
          .ok (chans.map (fun c => (List.range (e - b)).map (fun j => data c (b + j))))) ∧
    (∀ (d : Dataset) (sel : ChanSel) (spec : CoordSpec) (chans : List ℕ)
        (b e : ℕ) (slab : List (List ℚ)) (d' : Dataset) (inv : Bool),
        resolveChannels d.hdr sel = .ok chans →
        resolveSpan d.hdr spec = .ok (b, e) →
        (∀ cs bb ee rows, d.adapter cs bb ee = .ok rows →
          rows.length = cs.length ∧ ∀ r ∈ rows, r.length = ee - bb) →
        (∀ k s, (k, s) ∈ d.cache →
          s.length = k.1.length ∧ ∀ r ∈ s, r.length = k.2.2 - k.2.1) →
        read_data d sel spec = .ok (slab, d', inv) →
        slab.length = chans.length ∧ ∀ r ∈ slab, r.length = e - b) := by
  constructor
  · intro data chans b e hc he
    exact returnDatL_eq data chans b e hc he
  · intro d sel spec chans b e slab d' inv hch hsp hA hC h
    rw [read_data_eq_of hch hsp] at h
    exact serveSpan_shape hA hC h

/-- Witness for C4: the embedded adapter serves `[0,1] x [2,5)` in
channel-major order, and a concrete valid `read_data` on the fixture returns
a `(1, 1)` slab. -/
theorem read_data_exact_shape_witness :
    (returnDatL (fun _ _ => (7 : ℚ)) [0, 1] 2 5 =
      .ok ([0, 1].map (fun c =>
        (List.range (5 - 2)).map (fun j => (fun _ _ => (7 : ℚ)) c (2 + j))))) ∧
    ((fixtureSlab 1).length = [0].length ∧ ∀ r ∈ fixtureSlab 1, r.length = 1 - 0) :=
  ⟨read_data_exact_shape.1 (fun _ _ => (7 : ℚ)) [0, 1] 2 5 (by decide) (by decide),
   read_data_exact_shape.2 fixture (.names ["MFD1"]) (.samples 0 1) [0] 0 1
     (fixtureSlab 1) ⟨fixtureHdr, fixtureAdapter, [(([0], 0, 1), fixtureSlab 1)]⟩
     true rfl rfl
     (by
       intro cs bb ee rows h
       replace h : (fixtureAdapter cs bb ee : Except Unit (List (List ℚ))) =
         .ok rows := h
       unfold fixtureAdapter at h
       injection h with h
       subst h
       refine ⟨by simp, ?_⟩
       intro r hr
       simp only [List.mem_map] at hr
       obtain ⟨c, _, rfl⟩ := hr
       simp)
     (by intro k s hk; simp [fixture] at hk)
     rfl⟩

/-- C5: constructing a Dataset by opening a path matching no known adapter
signature (such as an empty file or an empty directory) fails with
`UnrecognizedFormat`; and this failure belongs to open time only —
`read_data` never fails with `UnrecognizedFormat`. -/
theorem open_unrecognized_format (α : Type) (cands : List (AdapterImpl α))
    (path : α) (hfail : ∀ c ∈ cands, c.return_hdr path = .error ()) :
    mkDataset cands none path = .error .UnrecognizedFormat ∧
    ∀ (d : Dataset) (sel : ChanSel) (spec : CoordSpec) (x : DatasetError),
      read_data d sel spec = .error x → x ≠ .UnrecognizedFormat := by
  constructor
  · unfold mkDataset
    rw [probeAdapters_fail hfail]
  · intro d sel spec x h
    exact read_data_error h

/-- Witness for C5: a probe list whose only candidate rejects the path. -/
theorem open_unrecognized_format_witness :
    mkDataset [failAdapter] none () = .error .UnrecognizedFormat ∧
    ∀ (d : Dataset) (sel : ChanSel) (spec : CoordSpec) (x : DatasetError),
      read_data d sel spec = .error x → x ≠ .UnrecognizedFormat :=
  open_unrecognized_format Unit [failAdapter] ()
    (by
      intro c hc
      simp only [List.mem_singleton] at hc
      subst hc
      rfl)

/-- C6: calling `read_data` with a channel selection of unsupported
shape/type — a bare string such as `'aaa'` where a sequence of names is
expected — fails with `ChannelTypeError`, a condition distinct from the
name-not-found `ChannelLookupError`. -/
theorem read_data_bare_string_type_error :
    (∀ (d : Dataset) (spec : CoordSpec) (s : String),
        read_data d (.bare s) spec = .error .ChannelTypeError) ∧
    (∀ n, DatasetError.ChannelTypeError ≠ DatasetError.ChannelLookupError n) := by
  constructor
  · intro d spec s
    rfl
  · intro n h
    exact DatasetError.noConfusion h

/-- Witness for C6 at the concrete fixture with the bare string `'aaa'`. -/
theorem read_data_bare_string_type_error_witness :
    read_data fixture (.bare "aaa") (.samples 0 1) = .error .ChannelTypeError ∧
    DatasetError.ChannelTypeError ≠ DatasetError.ChannelLookupError "aaa" :=
  ⟨read_data_bare_string_type_error.1 fixture (.samples 0 1) "aaa",
   read_data_bare_string_type_error.2 "aaa"⟩

/-- C7: for every `read_data` call whose resolved sample span is empty or
out of bounds — `begsam > endsam`, or `endsam > sample_count`, or indices
outside `[0, sample_count]` — a `CoordinateRangeError` is raised, and no
partial slab is returned: the call produces no `.ok` result at all. -/
theorem read_data_coordinate_range_error
    (d : Dataset) (sel : ChanSel) (spec : CoordSpec) (chans : List ℕ) (b e : ℤ)
    (hch : resolveChannels d.hdr sel = .ok chans)
    (hco : resolveCoords d.hdr spec = (b, e))
    (hbad : e < b ∨ (d.hdr.n_samples : ℤ) < e ∨ b < 0 ∨
      (d.hdr.n_samples : ℤ) < b ∨ e < 0) :
    read_data d sel spec = .error .CoordinateRangeError ∧
    ∀ slab d' inv, read_data d sel spec ≠ .ok (slab, d', inv) := by
  have hsp : resolveSpan d.hdr spec = .error .CoordinateRangeError := by
    unfold resolveSpan
    rw [hco]
    unfold validateSpan
    rw [if_pos (by omega)]
  have h1 : read_data d sel spec = .error .CoordinateRangeError := by
    unfold read_data
    rw [hch, hsp]
  refine ⟨h1, ?_⟩
  intro slab d' inv hok
  rw [h1] at hok
  exact Except.noConfusion hok

/-- Witness for C7 at the concrete fixture: requesting samples `[0, 513)` of
a 512-sample recording fails with `CoordinateRangeError`. -/
theorem read_data_coordinate_range_error_witness :
    read_data fixture (.names ["MFD1"]) (.samples 0 513) =
      .error .CoordinateRangeError ∧
    ∀ slab d' inv, read_data fixture (.names ["MFD1"]) (.samples 0 513) ≠
      .ok (slab, d', inv) :=
  read_data_coordinate_range_error fixture (.names ["MFD1"]) (.samples 0 513)
    [0] 0 513 rfl rfl (by decide)

/-- C8: when an adapter class is explicitly supplied at construction
(`Dataset(path, IOClass=...)`), format probing is bypassed: construction
succeeds on a path for which probing-based construction would fail with
`UnrecognizedFormat`, and a subsequent `read_data` call against that adapter
succeeds. -/
theorem ioclass_bypasses_probing (α : Type) (cands : List (AdapterImpl α))
    (path : α) (t : ℚ) (data : ℕ → ℕ → ℚ)
    (hfail : ∀ c ∈ cands, c.return_hdr path = .error ()) :
    mkDataset cands none path = .error .UnrecognizedFormat ∧
    ∃ d, mkDataset cands (some (testIOEEG t data)) path = .ok d ∧
      ∃ slab d', read_data d .all (.samples 0 1) = .ok (slab, d', true) := by
  refine ⟨?_, ⟨⟨testHdr t, ioeegAdapter data, []⟩, rfl, ?_⟩⟩
  · unfold mkDataset
    rw [probeAdapters_fail hfail]
  · exact ⟨[[data 0 0], [data 1 0]],
      ⟨testHdr t, ioeegAdapter data, [(([0, 1], 0, 1), [[data 0 0], [data 1 0]])]⟩,
      rfl⟩

/-- Witness for C8: a probe list whose only candidate rejects the path, with
the test adapter supplied explicitly. -/
theorem ioclass_bypasses_probing_witness :
    mkDataset [failAdapter] none () = .error .UnrecognizedFormat ∧
    ∃ d, mkDataset [failAdapter] (some (testIOEEG 0 (fun _ _ => 7))) () = .ok d ∧
      ∃ slab d', read_data d .all (.samples 0 1) = .ok (slab, d', true) :=
  ioclass_bypasses_probing Unit [failAdapter] () 0 (fun _ _ => 7)
    (by
      intro c hc
      simp only [List.mem_singleton] at hc
      subst hc
      rfl)

/-- C9: when the adapter's `return_dat` is called with a single integer
channel index instead of a list, it returns a one-dimensional buffer of
length `endsam - begsam` — the bare sliced row — whereas the list form at
the same index returns the documented two-dimensional `1 x (endsam -
begsam)` matrix wrapping that row. -/
theorem returnDat_int_one_dimensional (data : ℕ → ℕ → ℚ) (chan b e : ℕ)
    (hc : chan < 10) (he : e ≤ 100) :
    ∃ row, returnDatI data chan (b : ℤ) (e : ℤ) = .ok row ∧
      row.length = e - b ∧
      returnDatL data [chan] (b : ℤ) (e : ℤ) = .ok [row] := by
  refine ⟨(List.range (e - b)).map (fun j => data chan (b + j)), ?_, ?_, ?_⟩
  · unfold returnDatI
    rw [if_pos hc, pySlice_ioeegRow data chan b e he]
  · simp
  · rw [returnDatL_eq data [chan] b e (by simp [hc]) he]
    rfl

/-- Witness for C9 at a concrete integer channel index. -/
theorem returnDat_int_one_dimensional_witness :
    ∃ row, returnDatI (fun _ _ => (7 : ℚ)) 3 ((0 : ℕ) : ℤ) ((2 : ℕ) : ℤ) = .ok row ∧
      row.length = 2 - 0 ∧
      returnDatL (fun _ _ => (7 : ℚ)) [3] ((0 : ℕ) : ℤ) ((2 : ℕ) : ℤ) = .ok [row] :=
  returnDat_int_one_dimensional (fun _ _ => (7 : ℚ)) 3 0 2 (by decide) (by decide)

/-- C10: the adapter performs no bounds check on the sample span: when
`endsam` exceeds the actual per-channel buffer length (100), `return_dat`
silently returns a slab narrower than `endsam - begsam` (slice clamping)
instead of raising an out-of-range error, for the integer-channel form and
the list form alike. -/
theorem returnDat_clamps_out_of_range (data : ℕ → ℕ → ℚ) (chan b : ℕ) (e : ℤ)
    (hc : chan < 10) (hb : b ≤ 100) (he : (100 : ℤ) < e) :
    ∃ row, returnDatI data chan (b : ℤ) e = .ok row ∧
      row.length = 100 - b ∧ (row.length : ℤ) < e - (b : ℤ) ∧
      returnDatL data [chan] (b : ℤ) e = .ok [row] := by
  refine ⟨(List.range (100 - b)).map (fun j => data chan (b + j)), ?_, ?_, ?_, ?_⟩
  · unfold returnDatI
    rw [if_pos hc, pySlice_ioeegRow_clamped data chan b e hb (le_of_lt he)]
  · simp
  · simp only [List.length_map, List.length_range]
    omega
  · have hall : ([chan].all (· < 10)) = true := by simp [hc]
    unfold returnDatL
    rw [hall]
    simp only [if_true, List.map_cons, List.map_nil]
    rw [pySlice_ioeegRow_clamped data chan b e hb (le_of_lt he)]

/-- Witness for C10: reading samples `[2, 200)` of the 100-sample buffer
returns 98 values, not 198, and no error. -/
theorem returnDat_clamps_out_of_range_witness :
    ∃ row, returnDatI (fun _ _ => (7 : ℚ)) 3 ((2 : ℕ) : ℤ) 200 = .ok row ∧
      row.length = 100 - 2 ∧ (row.length : ℤ) < 200 - ((2 : ℕ) : ℤ) ∧
      returnDatL (fun _ _ => (7 : ℚ)) [3] ((2 : ℕ) : ℤ) 200 = .ok [row] :=
  returnDat_clamps_out_of_range (fun _ _ => (7 : ℚ)) 3 2 200 (by decide)
    (by decide) (by decide)

end Phypno
